import Mathlib

/-!
Verification of the invoice/payment lifecycle and the CSV product-import
pipeline of the kajiado-cosmetics-flow repository, as a shallow embedding
in Lean.  Money amounts are modelled as exact rationals (the source uses
JavaScript numbers); dates and timestamps are modelled as integers with
their ordering.
-/

/-- Whitespace test for the characters JS string trimming removes in the
inputs this application sees (space, tab, newline, carriage return). -/
def isWs (c : Char) : Bool := c = ' ' ∨ c = '\t' ∨ c = '\n' ∨ c = '\r'

/-- Drop leading whitespace characters. -/
def dropWhileWs : List Char → List Char
  | [] => []
  | c :: cs => if isWs c then dropWhileWs cs else c :: cs

/-- Model of JavaScript `String.prototype.trim`: strip whitespace from both
ends (kept executable on the character list so concrete runs reduce). -/
def jsTrim (s : String) : String :=
  String.mk (dropWhileWs ((dropWhileWs s.data.reverse).reverse))

/-- Model of JavaScript `String.prototype.toLowerCase` on the ASCII labels
this application uses. -/
def jsToLower (s : String) : String := String.mk (s.data.map Char.toLower)

/-- Invoice status enumeration, from `src/lib/db.ts` line 203:
`'draft' | 'sent' | 'paid' | 'overdue' | 'cancelled'`. -/
inductive InvoiceStatus where
  | draft
  | sent
  | paid
  | overdue
  | cancelled
deriving DecidableEq, Repr

/-- Invoice record: the fields of the `Invoice` interface of `src/lib/db.ts`
that the payment and status logic reads or writes. -/
structure Invoice where
  invoiceNumber : String
  status : InvoiceStatus
  subtotal : ℚ
  vatAmount : ℚ
  totalAmount : ℚ
  amountPaid : ℚ
  balanceDue : ℚ
  dueDate : ℤ
  createdAt : ℤ
  updatedAt : ℤ
deriving DecidableEq, Repr

/-- Payment record appended by `handleRecordPayment`
(`src/unnamed/part_007`, lines 44-53). -/
structure InvoicePayment where
  amount : ℚ
  paymentMethod : String
  paymentDate : ℤ
  referenceNumber : Option String
  notes : Option String
deriving DecidableEq, Repr

/-- State touched by the record-payment dialog: the invoice being paid and
the append-only payment collection (`db.invoicePayments`). -/
structure PaymentState where
  invoice : Invoice
  payments : List InvoicePayment
deriving DecidableEq, Repr

/-- Outcome of `handleRecordPayment`: the guard failures surface as
validation errors (`toast.error` plus early return), not as thrown faults. -/
inductive PaymentResult where
  | validationError (msg : String)
  | success
deriving DecidableEq, Repr

/-- Embedding of `handleRecordPayment` from `src/unnamed/part_007`
lines 31-73: reject `amount <= 0`, then `amount > invoice.balanceDue`;
otherwise append the payment record and update the invoice with
`newAmountPaid = amountPaid + amount`,
`newBalanceDue = totalAmount - newAmountPaid`, and
`newStatus = newBalanceDue === 0 ? 'paid' : invoice.status`.
The storage layer is assumed to succeed (the surrounding try/catch is out
of scope). -/
def handleRecordPayment (st : PaymentState) (amount : ℚ) (paymentMethod : String)
    (paymentDate : ℤ) (referenceNumber : String) (notes : String) (now : ℤ) :
    PaymentState × PaymentResult :=
  if amount ≤ 0 then
    (st, .validationError "Payment amount must be greater than zero")
  else if amount > st.invoice.balanceDue then
    (st, .validationError "Payment amount cannot exceed balance due")
  else
    let payment : InvoicePayment :=
      { amount := amount
        paymentMethod := paymentMethod
        paymentDate := paymentDate
        referenceNumber := if jsTrim referenceNumber = "" then none else some (jsTrim referenceNumber)
        notes := if jsTrim notes = "" then none else some (jsTrim notes) }
    let newAmountPaid := st.invoice.amountPaid + amount
    let newBalanceDue := st.invoice.totalAmount - newAmountPaid
    let newStatus := if newBalanceDue = 0 then InvoiceStatus.paid else st.invoice.status
    ({ invoice := { st.invoice with
        amountPaid := newAmountPaid
        balanceDue := newBalanceDue
        status := newStatus
        updatedAt := now }
       payments := st.payments ++ [payment] },
     .success)

/-- Embedding of `LocalDatabase.updateInvoiceStatus` from `src/lib/db.ts`
lines 331-350: `newStatus = 'paid'` when `balanceDue === 0`, else
`'overdue'` when `today > dueDate && status !== 'paid'`; the record is
rewritten (with a fresh `updatedAt`) only when the status changed. -/
def updateInvoiceStatus (inv : Invoice) (today : ℤ) : Invoice :=
  let newStatus :=
    if inv.balanceDue = 0 then InvoiceStatus.paid
    else if today > inv.dueDate ∧ inv.status ≠ InvoiceStatus.paid then InvoiceStatus.overdue
    else inv.status
  if newStatus ≠ inv.status then
    { inv with status := newStatus, updatedAt := today }
  else inv

/-- A concrete cancelled invoice with a positive balance and a due date in
the past, used to exercise the status-refresh logic. -/
def cancelledOverdueInvoice : Invoice :=
  { invoiceNumber := "INV-20250101-0001"
    status := .cancelled
    subtotal := 100
    vatAmount := 16
    totalAmount := 116
    amountPaid := 16
    balanceDue := 100
    dueDate := 10
    createdAt := 0
    updatedAt := 0 }

/-- A concrete cancelled invoice whose balance due is zero. -/
def cancelledSettledInvoice : Invoice :=
  { invoiceNumber := "INV-20250101-0002"
    status := .cancelled
    subtotal := 100
    vatAmount := 16
    totalAmount := 116
    amountPaid := 116
    balanceDue := 0
    dueDate := 10
    createdAt := 0
    updatedAt := 0 }

/-- A concrete sent invoice used as a payment-recording test fixture. -/
def sentInvoice : Invoice :=
  { invoiceNumber := "INV-20250101-0003"
    status := .sent
    subtotal := 100
    vatAmount := 16
    totalAmount := 116
    amountPaid := 0
    balanceDue := 116
    dueDate := 10
    createdAt := 0
    updatedAt := 0 }

/-- A concrete invoice in status `paid`. -/
def paidInvoice : Invoice :=
  { invoiceNumber := "INV-20250101-0004"
    status := .paid
    subtotal := 100
    vatAmount := 16
    totalAmount := 116
    amountPaid := 116
    balanceDue := 0
    dueDate := 10
    createdAt := 0
    updatedAt := 0 }

/-- Line item as edited in the invoice form
(`src/pages/Reports.tsx` lines 702-708). -/
structure LineItem where
  id : String
  productId : Option ℕ
  description : String
  quantity : ℚ
  unitPrice : ℚ
deriving DecidableEq, Repr

/-- Subtotal / VAT / total triple returned by the invoice calculators. -/
structure ItemTotals where
  subtotal : ℚ
  vatAmount : ℚ
  total : ℚ
deriving DecidableEq, Repr

/-- Embedding of `calculateItemTotal` (`src/pages/Reports.tsx` lines
796-804): `subtotal = quantity * unitPrice`, `vatAmount = subtotal * 0.16`
(VAT added on top), `total = subtotal + vatAmount`. -/
def calculateItemTotal (item : LineItem) : ItemTotals :=
  let subtotal := item.quantity * item.unitPrice
  let vatAmount := subtotal * 0.16
  { subtotal := subtotal, vatAmount := vatAmount, total := subtotal + vatAmount }

/-- Embedding of `calculateTotals` (`src/pages/Reports.tsx` lines 806-814):
the aggregate subtotal is the reduce-sum of `quantity * unitPrice` over the
line items, and the aggregate VAT and total are recomputed from that
aggregate subtotal. -/
def calculateTotals (lineItems : List LineItem) : ItemTotals :=
  let subtotal := lineItems.foldl (fun sum item => sum + item.quantity * item.unitPrice) 0
  let vatAmount := subtotal * 0.16
  { subtotal := subtotal, vatAmount := vatAmount, total := subtotal + vatAmount }

/-- VAT rate constant of the receipt dialog (`src/unnamed/part_008`
line 19). -/
def VAT_RATE : ℚ := 0.16

/-- VAT inclusion flag of the receipt dialog (`src/unnamed/part_008`
line 20). -/
def VAT_INCLUSIVE : Bool := true

/-- Embedding of `calculateVAT` (`src/unnamed/part_008` lines 22-27):
with inclusive semantics the VAT is backed out of the amount as
`amount * VAT_RATE / (1 + VAT_RATE)`. -/
def calculateVAT (amount : ℚ) : ℚ :=
  if VAT_INCLUSIVE then amount * VAT_RATE / (1 + VAT_RATE)
  else amount * VAT_RATE

/-- Model of `String.padStart(4, '0')` as used on the invoice sequence. -/
def padStart4 (s : String) : String :=
  if s.length < 4 then String.mk (List.replicate (4 - s.length) '0') ++ s else s

/-- Embedding of `LocalDatabase.generateInvoiceNumber` (`src/lib/db.ts`
lines 317-329): `dateStr` is today rendered as YYYYMMDD and `todayStart`
is the start-of-day timestamp; the sequence is one plus the count of
stored invoices whose `createdAt` is on or after `todayStart`. -/
def generateInvoiceNumber (invoices : List Invoice) (todayStart : ℤ)
    (dateStr : String) : String :=
  let count := (invoices.filter (fun inv => todayStart ≤ inv.createdAt)).length
  "INV-" ++ dateStr ++ "-" ++ padStart4 (toString (count + 1))

/-- Invoice item record written by the `saveInvoice` loop
(`src/pages/Reports.tsx` lines 861-873). -/
structure InvoiceItemRec where
  productId : Option ℕ
  description : String
  quantity : ℚ
  unitPrice : ℚ
  subtotal : ℚ
  vatAmount : ℚ
  total : ℚ
deriving DecidableEq, Repr

/-- Outcome of `saveInvoice`: either a validation error (toast plus early
return) or the stored invoice together with its stored item records. -/
inductive SaveResult where
  | validationError (msg : String)
  | saved (inv : Invoice) (items : List InvoiceItemRec)
deriving DecidableEq, Repr

/-- Embedding of `saveInvoice` (`src/pages/Reports.tsx` lines 816-881):
validate customer name and line items, compute totals with
`calculateTotals`, keep the existing invoice number when editing and call
`generateInvoiceNumber` for a new invoice (whatever the requested status),
store the aggregate totals on the invoice (with `amountPaid = 0` and
`balanceDue = total`), and store one item record per line item with the
per-line `calculateItemTotal` values. -/
def saveInvoice (existing : Option Invoice) (status : InvoiceStatus)
    (customerName : String) (lineItems : List LineItem)
    (invoices : List Invoice) (todayStart : ℤ) (dateStr : String)
    (dueDate : ℤ) (now : ℤ) : SaveResult :=
  if jsTrim customerName = "" then
    .validationError "Customer name is required"
  else if lineItems.any (fun item =>
      item.description = "" ∨ item.quantity ≤ 0 ∨ item.unitPrice ≤ 0) then
    .validationError "All line items must have description, quantity and price"
  else
    let totals := calculateTotals lineItems
    let invoiceNumber :=
      match existing with
      | some inv => inv.invoiceNumber
      | none => generateInvoiceNumber invoices todayStart dateStr
    let invoiceData : Invoice :=
      { invoiceNumber := invoiceNumber
        status := status
        subtotal := totals.subtotal
        vatAmount := totals.vatAmount
        totalAmount := totals.total
        amountPaid := 0
        balanceDue := totals.total
        dueDate := dueDate
        createdAt := match existing with | some inv => inv.createdAt | none => now
        updatedAt := now }
    .saved invoiceData
      (lineItems.map (fun item =>
        let itemTotals := calculateItemTotal item
        { productId := item.productId
          description := item.description
          quantity := item.quantity
          unitPrice := item.unitPrice
          subtotal := itemTotals.subtotal
          vatAmount := itemTotals.vatAmount
          total := itemTotals.total }))

/-- Invoice number of a successful save, for observing `saveInvoice` results
without touching the rational fields. -/
def savedNumber : SaveResult → Option String
  | .saved inv _ => some inv.invoiceNumber
  | _ => none

/-- Status of a successful save. -/
def savedStatus : SaveResult → Option InvoiceStatus
  | .saved inv _ => some inv.status
  | _ => none

/-- Two concrete line items used as fixtures: 2 x 50 and 1 x 30. -/
def sampleLineItems : List LineItem :=
  [ { id := "1", productId := none, description := "Body Soap", quantity := 2, unitPrice := 50 }
  , { id := "2", productId := none, description := "Hair Oil", quantity := 1, unitPrice := 30 } ]

/-- Leading run of decimal digits and the remaining characters. -/
def takeDigits : List Char → List ℕ × List Char
  | [] => ([], [])
  | c :: cs =>
    if c.isDigit then
      let r := takeDigits cs
      ((c.toNat - 48) :: r.1, r.2)
    else ([], c :: cs)

/-- Value of a digit run read most-significant first. -/
def digitsToNat (ds : List ℕ) : ℕ := ds.foldl (fun a d => a * 10 + d) 0

/-- Optional sign of a JS numeric literal; `true` means negative. -/
def parseSign : List Char → Bool × List Char
  | '-' :: cs => (true, cs)
  | '+' :: cs => (false, cs)
  | cs => (false, cs)

/-- Model of JS `parseFloat` on the decimal inputs the importer sees:
surrounding whitespace skipped, optional sign, longest leading digit run,
optional fractional digit run after a dot; `none` stands for `NaN` (no
digit consumed), and trailing junk is ignored as in JS. -/
def parseFloat (s : String) : Option ℚ :=
  let cs := (jsTrim s).data
  let sgn := parseSign cs
  let ip := takeDigits sgn.2
  let fp :=
    match ip.2 with
    | '.' :: rest => (takeDigits rest).1
    | _ => []
  if ip.1 = [] ∧ fp = [] then none
  else
    let mag : ℚ := (digitsToNat ip.1 : ℚ) + (digitsToNat fp : ℚ) / ((10 : ℚ) ^ fp.length)
    some (if sgn.1 then -mag else mag)

/-- Model of JS `parseInt` with default radix 10 on the same inputs:
optional sign then the longest leading digit run; `none` stands for
`NaN`. -/
def parseInt (s : String) : Option ℤ :=
  let cs := (jsTrim s).data
  let sgn := parseSign cs
  let ip := takeDigits sgn.2
  if ip.1 = [] then none
  else some (if sgn.1 then -(digitsToNat ip.1 : ℤ) else (digitsToNat ip.1 : ℤ))

/-- `isNaN(v) || v < 0` on a parseFloat result. -/
def badNumQ (v : Option ℚ) : Bool :=
  match v with
  | none => true
  | some x => decide (x < 0)

/-- `isNaN(v) || v < 0` on a parseInt result. -/
def badNumZ (v : Option ℤ) : Bool :=
  match v with
  | none => true
  | some x => decide (x < 0)

/-- Category record of the local database (`src/lib/db.ts`). -/
structure Category where
  name : String
  createdAt : ℤ
deriving DecidableEq, Repr

/-- Field-level validation error emitted by the CSV validators. -/
structure ValidationError where
  row : ℕ
  field : String
  message : String
deriving DecidableEq, Repr

/-- Raw CSV row of the local-db import variant (`src/unnamed/part_005`
lines 12-21); a column absent from the parsed object is `none`. -/
structure CSVRowL where
  name : Option String
  brand : Option String
  category : Option String
  barcode : Option String
  buying_price : Option String
  selling_price : Option String
  stock : Option String
  reorder_level : Option String
deriving DecidableEq, Repr

/-- Typed product record produced by the local-variant validator
(`src/unnamed/part_005` lines 23-32). -/
structure ParsedProductL where
  name : String
  brand : String
  category : String
  barcode : Option String
  buyingPrice : ℚ
  sellingPrice : ℚ
  stock : ℚ
  reorderLevel : ℤ
deriving DecidableEq, Repr

/-- Classification returned by the local-variant `validateRow`. -/
structure RowResultL where
  valid : Bool
  product : Option ParsedProductL
  errors : List ValidationError
deriving DecidableEq, Repr

/-- Field errors collected by the local-variant `validateRow`
(`src/unnamed/part_005` lines 66-101), in push order. -/
def localRowErrors (row : CSVRowL) (rowIndex : ℕ) : List ValidationError :=
  let nameErrs :=
    if jsTrim (row.name.getD "") = "" then
      [⟨rowIndex, "name", "Product name is required"⟩] else []
  let catErrs :=
    if jsTrim (row.category.getD "") = "" then
      [⟨rowIndex, "category", "Category is required"⟩] else []
  let bpErrs :=
    if badNumQ (parseFloat (row.buying_price.getD "")) then
      [⟨rowIndex, "buying_price", "Buying price must be a positive number"⟩] else []
  let spErrs :=
    if badNumQ (parseFloat (row.selling_price.getD "")) then
      [⟨rowIndex, "selling_price", "Selling price must be a positive number"⟩] else []
  let stErrs :=
    if badNumQ (parseFloat (row.stock.getD "")) then
      [⟨rowIndex, "stock", "Quantity must be a non-negative number"⟩] else []
  let threshold :=
    match row.reorder_level with
    | none => some (10 : ℤ)
    | some s => if s = "" then some (10 : ℤ) else parseInt s
  let rlErrs :=
    if badNumZ threshold then
      [⟨rowIndex, "reorder_level", "Reorder level must be a non-negative number"⟩] else []
  nameErrs ++ catErrs ++ bpErrs ++ spErrs ++ stErrs ++ rlErrs

/-- Typed record built by the local-variant `validateRow` on the
error-free path (`src/unnamed/part_005` lines 107-120). -/
def localParsedProduct (row : CSVRowL) : ParsedProductL :=
  { name := jsTrim (row.name.getD "")
    brand := jsTrim (row.brand.getD "")
    category := jsTrim (row.category.getD "")
    barcode := row.barcode.map jsTrim
    buyingPrice := (parseFloat (row.buying_price.getD "")).getD 0
    sellingPrice := (parseFloat (row.selling_price.getD "")).getD 0
    stock := (parseFloat (row.stock.getD "")).getD 0
    reorderLevel :=
      (match row.reorder_level with
        | none => some (10 : ℤ)
        | some s => if s = "" then some (10 : ℤ) else parseInt s).getD 0 }

/-- Category write performed by the local-variant `validateRow`
(`src/unnamed/part_005` lines 77-81): when the trimmed category label is
non-empty and its lowercase form is not among the lowercase known names,
`db.categories.add` runs during the validation pass, appending one
category named by the trimmed label. -/
def localNewDb (row : CSVRowL) (categories db : List Category) (now : ℤ) :
    List Category :=
  let validCategories := categories.map (fun c => jsToLower c.name)
  if ¬ (jsTrim (row.category.getD "") = "")
      ∧ ¬ validCategories.contains (jsToLower (row.category.getD "")) then
    db ++ [⟨jsTrim (row.category.getD ""), now⟩]
  else db

/-- Embedding of the local-variant `validateRow` (`src/unnamed/part_005`
lines 66-121).  `categories` is the component-state category list the
known-name check reads; `db` is the stored category collection the
function writes to during the validation pass (even when other fields of
the row are invalid), reflected in the second component. -/
def validateRowLocal (row : CSVRowL) (rowIndex : ℕ) (categories : List Category)
    (db : List Category) (now : ℤ) : RowResultL × List Category :=
  let rowErrors := localRowErrors row rowIndex
  let result : RowResultL :=
    if rowErrors ≠ [] then ⟨false, none, rowErrors⟩
    else ⟨true, some (localParsedProduct row), []⟩
  (result, localNewDb row categories db now)

/-- Fixed category labels of the supabase variant (`src/unnamed/part_006`
lines 12-15). -/
def PRODUCT_CATEGORIES : List String :=
  ["soaps", "lotions", "oils", "deodorants", "hair_products",
   "petroleum_jelly", "toothpaste", "detergents", "household_hygiene", "other"]

/-- Raw CSV row of the supabase import variant (`src/unnamed/part_006`
lines 19-30). -/
structure CSVRowS where
  name : Option String
  brand : Option String
  category : Option String
  unit_size : Option String
  barcode : Option String
  cost_price : Option String
  selling_price : Option String
  quantity_in_stock : Option String
  low_stock_threshold : Option String
  supplier : Option String
deriving DecidableEq, Repr

/-- Typed product record of the supabase variant (`src/unnamed/part_006`
lines 32-43). -/
structure ParsedProductS where
  name : String
  brand : Option String
  category : String
  unit_size : String
  barcode : Option String
  cost_price : ℚ
  selling_price : ℚ
  quantity_in_stock : ℤ
  low_stock_threshold : ℤ
  supplier : Option String
deriving DecidableEq, Repr

/-- Classification returned by the supabase-variant `validateRow`. -/
structure RowResultS where
  valid : Bool
  product : Option ParsedProductS
  errors : List ValidationError
deriving DecidableEq, Repr

/-- Field errors collected by the supabase-variant `validateRow`
(`src/unnamed/part_006` lines 65-101), in push order; an unknown category
is a field error here, never a write. -/
def supabaseRowErrors (row : CSVRowS) (rowIndex : ℕ) : List ValidationError :=
  let nameErrs :=
    if jsTrim (row.name.getD "") = "" then
      [⟨rowIndex, "name", "Product name is required"⟩] else []
  let catErrs :=
    if jsTrim (row.category.getD "") = "" then
      [⟨rowIndex, "category", "Category is required"⟩]
    else if ¬ PRODUCT_CATEGORIES.contains (jsToLower (row.category.getD "")) then
      [⟨rowIndex, "category",
        "Invalid category. Must be one of: soaps, lotions, oils, deodorants, hair_products, petroleum_jelly, toothpaste, detergents, household_hygiene, other"⟩]
    else []
  let usErrs :=
    if jsTrim (row.unit_size.getD "") = "" then
      [⟨rowIndex, "unit_size", "Unit size is required"⟩] else []
  let cpErrs :=
    if badNumQ (parseFloat (row.cost_price.getD "")) then
      [⟨rowIndex, "cost_price", "Cost price must be a positive number"⟩] else []
  let spErrs :=
    if badNumQ (parseFloat (row.selling_price.getD "")) then
      [⟨rowIndex, "selling_price", "Selling price must be a positive number"⟩] else []
  let qErrs :=
    if badNumZ (parseInt (row.quantity_in_stock.getD "")) then
      [⟨rowIndex, "quantity_in_stock", "Quantity must be a non-negative number"⟩] else []
  let threshold :=
    match row.low_stock_threshold with
    | none => some (10 : ℤ)
    | some s => if s = "" then some (10 : ℤ) else parseInt s
  let tErrs :=
    if badNumZ threshold then
      [⟨rowIndex, "low_stock_threshold", "Low stock threshold must be a non-negative number"⟩] else []
  nameErrs ++ catErrs ++ usErrs ++ cpErrs ++ spErrs ++ qErrs ++ tErrs

/-- Typed record built by the supabase-variant `validateRow` on the
error-free path (`src/unnamed/part_006` lines 106-121). -/
def supabaseParsedProduct (row : CSVRowS) : ParsedProductS :=
  { name := jsTrim (row.name.getD "")
    brand := row.brand.map jsTrim
    category := jsToLower (row.category.getD "")
    unit_size := jsTrim (row.unit_size.getD "")
    barcode := row.barcode.map jsTrim
    cost_price := (parseFloat (row.cost_price.getD "")).getD 0
    selling_price := (parseFloat (row.selling_price.getD "")).getD 0
    quantity_in_stock := (parseInt (row.quantity_in_stock.getD "")).getD 0
    low_stock_threshold :=
      (match row.low_stock_threshold with
        | none => some (10 : ℤ)
        | some s => if s = "" then some (10 : ℤ) else parseInt s).getD 0
    supplier := row.supplier.map jsTrim }

/-- Embedding of the supabase-variant `validateRow` (`src/unnamed/part_006`
lines 65-122): pure classification, no writes. -/
def validateRowSupabase (row : CSVRowS) (rowIndex : ℕ) : RowResultS :=
  let rowErrors := supabaseRowErrors row rowIndex
  if rowErrors ≠ [] then ⟨false, none, rowErrors⟩
  else ⟨true, some (supabaseParsedProduct row), []⟩

/-- Loop body of the supabase `handleFileUpload` validation pass
(`src/unnamed/part_006` lines 135-142): a valid row with a product goes to
the valid set, otherwise the row errors are appended. -/
def stepS (acc : List ParsedProductS × List ValidationError) (p : ℕ × CSVRowS) :
    List ParsedProductS × List ValidationError :=
  let v := validateRowSupabase p.2 (p.1 + 2)
  match v.valid, v.product with
  | true, some prod => (acc.1 ++ [prod], acc.2)
  | _, _ => (acc.1, acc.2 ++ v.errors)

/-- Validation pass of the supabase `handleFileUpload`: each parsed row at
0-based `index` is validated as row `index + 2` (row 1 is the header). -/
def processRowsSupabase (rows : List CSVRowS) :
    List ParsedProductS × List ValidationError :=
  rows.enum.foldl stepS ([], [])

/-- Loop body of the local `handleFileUpload` validation pass
(`src/unnamed/part_005` lines 137-144); the stored category collection is
threaded through because `validateRow` writes to it, while the known-name
check keeps reading the unchanged component-state snapshot. -/
def stepL (categories : List Category) (now : ℤ)
    (acc : (List ParsedProductL × List ValidationError) × List Category)
    (p : ℕ × CSVRowL) :
    (List ParsedProductL × List ValidationError) × List Category :=
  let v := validateRowLocal p.2 (p.1 + 2) categories acc.2 now
  match (v.1).valid, (v.1).product with
  | true, some prod => ((acc.1.1 ++ [prod], acc.1.2), v.2)
  | _, _ => ((acc.1.1, acc.1.2 ++ (v.1).errors), v.2)

/-- Validation pass of the local `handleFileUpload`. -/
def processRowsLocal (rows : List CSVRowL) (categories db : List Category)
    (now : ℤ) : (List ParsedProductL × List ValidationError) × List Category :=
  rows.enum.foldl (stepL categories now) (([], []), db)

/-- Per-record import loop of the local variant (`src/unnamed/part_005`
lines 195-218): every `db.products.add` sits in its own try/catch, so a
failure (modelled by `failsAt` on the 0-based record position) increments
the failed count and the loop continues; the successful records are
appended to the stored collection. -/
def handleImportLocal (records : List ParsedProductL) (failsAt : ℕ → Bool)
    (stored : List ParsedProductL) : ℕ × ℕ × List ParsedProductL :=
  records.enum.foldl (fun acc p =>
    if failsAt p.1 then (acc.1, acc.2.1 + 1, acc.2.2)
    else (acc.1 + 1, acc.2.1, acc.2.2 ++ [p.2])) (0, 0, stored)

/-- Chunking into batches of 50 with an explicit fuel bound. -/
def toBatchesGo (fuel : ℕ) (l : List (ℕ × ParsedProductS)) :
    List (List (ℕ × ParsedProductS)) :=
  match fuel, l with
  | 0, _ => []
  | _, [] => []
  | f + 1, l => l.take 50 :: toBatchesGo f (l.drop 50)

/-- `for (let i = 0; i < csvData.length; i += batchSize)` slicing with
`batchSize = 50` (`src/unnamed/part_006` lines 175-180). -/
def toBatches (l : List (ℕ × ParsedProductS)) : List (List (ℕ × ParsedProductS)) :=
  toBatchesGo l.length l

/-- Batched import loop of the supabase variant (`src/unnamed/part_006`
lines 165-220): one `insert` per 50-record batch; when the insert errors
(modelled as: some record of the batch fails at the storage layer) the
whole batch counts as failed and none of its records is stored, otherwise
the whole batch counts as successful and is stored. -/
def handleImportSupabase (records : List ParsedProductS) (failsAt : ℕ → Bool) :
    ℕ × ℕ × List ParsedProductS :=
  (toBatches records.enum).foldl (fun acc batch =>
    if batch.any (fun p => failsAt p.1) then
      (acc.1, acc.2.1 + batch.length, acc.2.2)
    else
      (acc.1 + batch.length, acc.2.1, acc.2.2 ++ batch.map (fun p => p.2))) (0, 0, [])

/-- A CSV row whose category label is not among the known categories and
whose other fields are well-formed. -/
def unknownCatRow : CSVRowL :=
  { name := some "Shea Butter"
    brand := some "Local"
    category := some "Butters"
    barcode := none
    buying_price := some "100"
    selling_price := some "150"
    stock := some "5"
    reorder_level := none }

/-- A one-element category state. -/
def baseCategories : List Category := [⟨"Groceries", 0⟩]

/-- An empty CSV row: every column missing. -/
def emptyRowS : CSVRowS :=
  { name := none, brand := none, category := none, unit_size := none,
    barcode := none, cost_price := none, selling_price := none,
    quantity_in_stock := none, low_stock_threshold := none, supplier := none }

/-- A concrete supabase-variant product record, indexed by a number so ten
distinct records are easy to build. -/
def sampleProductS (n : ℕ) : ParsedProductS :=
  { name := "Product " ++ toString n
    brand := none
    category := "soaps"
    unit_size := "100g"
    barcode := none
    cost_price := 10
    selling_price := 20
    quantity_in_stock := 5
    low_stock_threshold := 10
    supplier := none }

/-- Ten concrete records for the batch-import scenario. -/
def tenProducts : List ParsedProductS := (List.range 10).map sampleProductS

/-- One status refresh keeps a `paid` invoice `paid`. -/
theorem updateInvoiceStatus_paid_step (inv : Invoice) (t : ℤ) (h : inv.status = .paid) :
    (updateInvoiceStatus inv t).status = .paid := by
  unfold updateInvoiceStatus
  by_cases hb : inv.balanceDue = 0
  · simp [hb, h]
  · simp [hb, h]

/-- C1: with `0 < amount ≤ balanceDue`, recording a payment succeeds, appends
exactly one payment record carrying that amount, sets `amountPaid` to the old
value plus `amount`, sets `balanceDue` to `totalAmount` minus the new
`amountPaid`, and sets status to `paid` exactly when the new balance is zero,
leaving it unchanged otherwise. -/
theorem handleRecordPayment_effect (st : PaymentState) (amount : ℚ) (pm : String)
    (pd : ℤ) (ref : String) (notes : String) (now : ℤ)
    (h1 : 0 < amount) (h2 : amount ≤ st.invoice.balanceDue) :
    (handleRecordPayment st amount pm pd ref notes now).2 = .success ∧
    (∃ p : InvoicePayment, p.amount = amount ∧
      (handleRecordPayment st amount pm pd ref notes now).1.payments = st.payments ++ [p]) ∧
    (handleRecordPayment st amount pm pd ref notes now).1.invoice.amountPaid
      = st.invoice.amountPaid + amount ∧
    (handleRecordPayment st amount pm pd ref notes now).1.invoice.balanceDue
      = st.invoice.totalAmount - (st.invoice.amountPaid + amount) ∧
    (handleRecordPayment st amount pm pd ref notes now).1.invoice.status
      = (if st.invoice.totalAmount - (st.invoice.amountPaid + amount) = 0
          then InvoiceStatus.paid else st.invoice.status) := by
  have hn1 : ¬ amount ≤ 0 := not_le.mpr h1
  have hn2 : ¬ amount > st.invoice.balanceDue := not_lt.mpr h2
  unfold handleRecordPayment
  rw [if_neg hn1, if_neg hn2]
  exact ⟨rfl, ⟨_, rfl, rfl⟩, rfl, rfl, rfl⟩

/-- C1 witness: paying 116 on a sent invoice with balance 116 succeeds, closes
the balance and marks the invoice paid. -/
theorem handleRecordPayment_effect_witness :
    (handleRecordPayment ⟨sentInvoice, []⟩ 116 "cash" 3 "" "" 3).2 = .success ∧
    (∃ p : InvoicePayment, p.amount = 116 ∧
      (handleRecordPayment ⟨sentInvoice, []⟩ 116 "cash" 3 "" "" 3).1.payments = [] ++ [p]) ∧
    (handleRecordPayment ⟨sentInvoice, []⟩ 116 "cash" 3 "" "" 3).1.invoice.amountPaid
      = sentInvoice.amountPaid + 116 ∧
    (handleRecordPayment ⟨sentInvoice, []⟩ 116 "cash" 3 "" "" 3).1.invoice.balanceDue
      = sentInvoice.totalAmount - (sentInvoice.amountPaid + 116) ∧
    (handleRecordPayment ⟨sentInvoice, []⟩ 116 "cash" 3 "" "" 3).1.invoice.status
      = (if sentInvoice.totalAmount - (sentInvoice.amountPaid + 116) = 0
          then InvoiceStatus.paid else sentInvoice.status) :=
  handleRecordPayment_effect ⟨sentInvoice, []⟩ 116 "cash" 3 "" "" 3
    (by norm_num) (by norm_num [sentInvoice])

/-- C2: a payment with `amount ≤ 0` or `amount > balanceDue` is rejected as a
validation error and the invoice and payment collection are left unchanged. -/
theorem handleRecordPayment_rejects (st : PaymentState) (amount : ℚ) (pm : String)
    (pd : ℤ) (ref : String) (notes : String) (now : ℤ)
    (h : amount ≤ 0 ∨ amount > st.invoice.balanceDue) :
    (handleRecordPayment st amount pm pd ref notes now).1 = st ∧
    ∃ msg, (handleRecordPayment st amount pm pd ref notes now).2
      = .validationError msg := by
  by_cases h0 : amount ≤ 0
  · refine ⟨?_, ?_⟩ <;> simp [handleRecordPayment, h0]
  · have hgt : amount > st.invoice.balanceDue := h.resolve_left h0
    refine ⟨?_, ?_⟩ <;> simp [handleRecordPayment, h0, hgt]

/-- C2 witness: an overpayment of 200 against balance 116 is rejected and the
state is unchanged. -/
theorem handleRecordPayment_rejects_witness :
    (handleRecordPayment ⟨sentInvoice, []⟩ 200 "cash" 3 "" "" 3).1 = ⟨sentInvoice, []⟩ ∧
    ∃ msg, (handleRecordPayment ⟨sentInvoice, []⟩ 200 "cash" 3 "" "" 3).2
      = .validationError msg :=
  handleRecordPayment_rejects ⟨sentInvoice, []⟩ 200 "cash" 3 "" "" 3
    (Or.inr (by norm_num [sentInvoice]))

/-- C3 counterexample: a `cancelled` invoice with positive balance and a due
date in the past is moved to `overdue` by a status refresh, so a cancelled
invoice does not stay out of `overdue` as the claim states. -/
theorem updateInvoiceStatus_cancelled_counterexample :
    cancelledOverdueInvoice.status = .cancelled ∧
    cancelledOverdueInvoice.balanceDue > 0 ∧
    cancelledOverdueInvoice.dueDate < 20 ∧
    (updateInvoiceStatus cancelledOverdueInvoice 20).status = .overdue := by
  refine ⟨rfl, by norm_num [cancelledOverdueInvoice], by decide, ?_⟩
  simp [updateInvoiceStatus, cancelledOverdueInvoice]

/-- C3 amended: a `sent` invoice with positive balance and due date in the
past moves to `overdue` on refresh, and a `paid` invoice never leaves `paid`
under any sequence of refreshes; the never-overdue guarantee holds for `paid`
only, not for `cancelled`. -/
theorem updateInvoiceStatus_overdue_and_paid_stable :
    (∀ (inv : Invoice) (today : ℤ), inv.status = .sent → 0 < inv.balanceDue →
      inv.dueDate < today → (updateInvoiceStatus inv today).status = .overdue) ∧
    (∀ (inv : Invoice) (todays : List ℤ), inv.status = .paid →
      (todays.foldl updateInvoiceStatus inv).status = .paid) := by
  constructor
  · intro inv today hs hb hd
    have hb0 : inv.balanceDue ≠ 0 := ne_of_gt hb
    simp [updateInvoiceStatus, hb0, hd, hs]
  · intro inv todays
    induction todays generalizing inv with
    | nil => exact fun h => h
    | cons t ts ih =>
      intro h
      exact ih _ (updateInvoiceStatus_paid_step inv t h)

/-- C3 amended witness: the sent fixture past its due date becomes overdue,
and the paid fixture survives a refresh sequence unchanged. -/
theorem updateInvoiceStatus_overdue_and_paid_stable_witness :
    (updateInvoiceStatus sentInvoice 20).status = .overdue ∧
    ([5, 20, 30].foldl updateInvoiceStatus paidInvoice).status = .paid :=
  ⟨updateInvoiceStatus_overdue_and_paid_stable.1 sentInvoice 20 rfl
      (by norm_num [sentInvoice]) (by decide),
    updateInvoiceStatus_overdue_and_paid_stable.2 paidInvoice [5, 20, 30] rfl⟩

/-- C10: whenever `balanceDue = 0`, a status refresh yields status `paid`,
regardless of the current status (the zero-balance branch runs before any
status guard). -/
theorem updateInvoiceStatus_zero_balance_paid (inv : Invoice) (today : ℤ)
    (h : inv.balanceDue = 0) :
    (updateInvoiceStatus inv today).status = .paid := by
  unfold updateInvoiceStatus
  by_cases hs : inv.status = InvoiceStatus.paid
  · simp [h, hs]
  · have hs' : InvoiceStatus.paid ≠ inv.status := fun he => hs he.symm
    simp [h, hs, hs']

/-- C10 witness: a cancelled invoice with zero balance is refreshed to
`paid`. -/
theorem updateInvoiceStatus_zero_balance_paid_witness :
    cancelledSettledInvoice.status = .cancelled ∧
    (updateInvoiceStatus cancelledSettledInvoice 99).status = .paid :=
  ⟨rfl, updateInvoiceStatus_zero_balance_paid cancelledSettledInvoice 99 rfl⟩

/-- Folding the line-item subtotal accumulator equals the accumulator plus
the sum of per-line `quantity * unitPrice`. -/
theorem foldl_add_sum (l : List LineItem) (a : ℚ) :
    l.foldl (fun sum item => sum + item.quantity * item.unitPrice) a
      = a + (l.map (fun item => item.quantity * item.unitPrice)).sum := by
  induction l generalizing a with
  | nil => simp
  | cons x xs ih => simp [ih]; ring

/-- Summing per-line VAT equals the summed subtotal times the rate. -/
theorem sum_map_vat (l : List LineItem) :
    (l.map fun it => it.quantity * it.unitPrice * 0.16).sum
      = (l.map fun it => it.quantity * it.unitPrice).sum * 0.16 := by
  induction l with
  | nil => simp
  | cons x xs ih => simp [ih]; ring

/-- Summing per-line totals equals summed subtotal plus summed VAT. -/
theorem sum_map_line_total (l : List LineItem) :
    (l.map fun it => it.quantity * it.unitPrice + it.quantity * it.unitPrice * 0.16).sum
      = (l.map fun it => it.quantity * it.unitPrice).sum
        + (l.map fun it => it.quantity * it.unitPrice).sum * 0.16 := by
  induction l with
  | nil => simp
  | cons x xs ih => simp [ih]; ring

/-- The aggregate `calculateTotals` values coincide with the sums of the
per-line `calculateItemTotal` values. -/
theorem calculateTotals_as_sums (l : List LineItem) :
    (calculateTotals l).subtotal = (l.map (fun it => (calculateItemTotal it).subtotal)).sum ∧
    (calculateTotals l).vatAmount = (l.map (fun it => (calculateItemTotal it).vatAmount)).sum ∧
    (calculateTotals l).total = (l.map (fun it => (calculateItemTotal it).total)).sum := by
  have hm1 : (l.map fun it => (calculateItemTotal it).subtotal)
      = l.map fun it => it.quantity * it.unitPrice := rfl
  have hm2 : (l.map fun it => (calculateItemTotal it).vatAmount)
      = l.map fun it => it.quantity * it.unitPrice * 0.16 := rfl
  have hm3 : (l.map fun it => (calculateItemTotal it).total)
      = l.map fun it => it.quantity * it.unitPrice + it.quantity * it.unitPrice * 0.16 := rfl
  have hsub : (calculateTotals l).subtotal
      = (l.map fun it => it.quantity * it.unitPrice).sum := by
    show l.foldl (fun sum item => sum + item.quantity * item.unitPrice) 0 = _
    rw [foldl_add_sum, zero_add]
  refine ⟨by rw [hm1, ← hsub], ?_, ?_⟩
  · rw [hm2, sum_map_vat, ← hsub]; rfl
  · rw [hm3, sum_map_line_total, ← hsub]; rfl

/-- C5: for a line with positive quantity and non-negative unit price, the
subtotal is `quantity * unitPrice`; the invoice-mode VAT equals
`subtotal * 0.16` (exclusive, added on top) and the receipt-mode VAT equals
`subtotal * 0.16 / 1.16` (inclusive, backed out), each within 1e-6. -/
theorem vat_conventions (item : LineItem)
    (hq : 0 < item.quantity) (hp : 0 ≤ item.unitPrice) :
    (calculateItemTotal item).subtotal = item.quantity * item.unitPrice ∧
    |(calculateItemTotal item).vatAmount
        - item.quantity * item.unitPrice * 0.16| ≤ 1 / 1000000 ∧
    |calculateVAT (item.quantity * item.unitPrice)
        - item.quantity * item.unitPrice * 0.16 / 1.16| ≤ 1 / 1000000 := by
  refine ⟨rfl, ?_, ?_⟩
  · have h : (calculateItemTotal item).vatAmount
        = item.quantity * item.unitPrice * 0.16 := rfl
    rw [h, sub_self, abs_zero]
    norm_num
  · have h : calculateVAT (item.quantity * item.unitPrice)
        = item.quantity * item.unitPrice * 0.16 / 1.16 := by
      unfold calculateVAT VAT_INCLUSIVE VAT_RATE
      norm_num
    rw [h, sub_self, abs_zero]
    norm_num

/-- C5 witness: the 2 x 50 line. -/
theorem vat_conventions_witness :
    (calculateItemTotal ⟨"1", none, "Body Soap", 2, 50⟩).subtotal = 2 * 50 ∧
    |(calculateItemTotal ⟨"1", none, "Body Soap", 2, 50⟩).vatAmount
        - 2 * 50 * 0.16| ≤ 1 / 1000000 ∧
    |calculateVAT (2 * 50) - 2 * 50 * 0.16 / 1.16| ≤ 1 / 1000000 :=
  vat_conventions ⟨"1", none, "Body Soap", 2, 50⟩ (by norm_num) (by norm_num)

/-- C6: for inputs passing the form validation, the stored invoice aggregate
`subtotal`, `vatAmount` and `totalAmount` each equal the sum of the
corresponding stored per-line values. -/
theorem saveInvoice_totals_are_sums (existing : Option Invoice)
    (status : InvoiceStatus) (customerName : String) (lineItems : List LineItem)
    (invoices : List Invoice) (todayStart : ℤ) (dateStr : String)
    (dueDate : ℤ) (now : ℤ)
    (hname : jsTrim customerName ≠ "")
    (hitems : (lineItems.any fun item =>
      item.description = "" ∨ item.quantity ≤ 0 ∨ item.unitPrice ≤ 0) = false) :
    ∃ inv items, saveInvoice existing status customerName lineItems invoices
        todayStart dateStr dueDate now = .saved inv items ∧
      inv.subtotal = (items.map (fun it => it.subtotal)).sum ∧
      inv.vatAmount = (items.map (fun it => it.vatAmount)).sum ∧
      inv.totalAmount = (items.map (fun it => it.total)).sum := by
  unfold saveInvoice
  rw [if_neg hname, if_neg (ne_of_eq_of_ne hitems (by decide))]
  refine ⟨_, _, rfl, ?_, ?_, ?_⟩
  · rw [List.map_map]
    exact (calculateTotals_as_sums lineItems).1
  · rw [List.map_map]
    exact (calculateTotals_as_sums lineItems).2.1
  · rw [List.map_map]
    exact (calculateTotals_as_sums lineItems).2.2

/-- C6 witness: a concrete two-line invoice save. -/
theorem saveInvoice_totals_are_sums_witness :
    ∃ inv items, saveInvoice none .sent "Alice" sampleLineItems []
        0 "20251011" 30 5 = .saved inv items ∧
      inv.subtotal = (items.map (fun it => it.subtotal)).sum ∧
      inv.vatAmount = (items.map (fun it => it.vatAmount)).sum ∧
      inv.totalAmount = (items.map (fun it => it.total)).sum :=
  saveInvoice_totals_are_sums none .sent "Alice" sampleLineItems [] 0 "20251011" 30 5
    (by decide) (by simp [sampleLineItems])

/-- C9 counterexample: saving a brand-new invoice as a `draft` already calls
the invoice-number generator and stores `INV-20251011-0001`, so the number
is not reserved for finalization. -/
theorem invoiceNumber_at_draft_counterexample :
    savedStatus (saveInvoice none .draft "Alice" sampleLineItems [] 0 "20251011" 30 5)
      = some .draft ∧
    savedNumber (saveInvoice none .draft "Alice" sampleLineItems [] 0 "20251011" 30 5)
      = some "INV-20251011-0001" := by
  have hname : jsTrim "Alice" ≠ "" := by decide
  have hitems : (sampleLineItems.any fun item =>
      item.description = "" ∨ item.quantity ≤ 0 ∨ item.unitPrice ≤ 0) = false := by
    simp [sampleLineItems]
  unfold saveInvoice
  rw [if_neg hname, if_neg (ne_of_eq_of_ne hitems (by decide))]
  refine ⟨rfl, ?_⟩
  show some (generateInvoiceNumber [] 0 "20251011") = some "INV-20251011-0001"
  decide

/-- C9 amended: every new-invoice save, whatever status is requested (draft
included), assigns `INV-{dateStr}-{zero-padded sequence}` where the sequence
is one plus the count of stored invoices created on or after the start of
the current day. -/
theorem saveInvoice_number_shape (status : InvoiceStatus) (customerName : String)
    (lineItems : List LineItem) (invoices : List Invoice) (todayStart : ℤ)
    (dateStr : String) (dueDate : ℤ) (now : ℤ)
    (hname : jsTrim customerName ≠ "")
    (hitems : (lineItems.any fun item =>
      item.description = "" ∨ item.quantity ≤ 0 ∨ item.unitPrice ≤ 0) = false) :
    ∃ inv items, saveInvoice none status customerName lineItems invoices
        todayStart dateStr dueDate now = .saved inv items ∧
      inv.status = status ∧
      inv.invoiceNumber = "INV-" ++ dateStr ++ "-" ++ padStart4
        (toString ((invoices.filter (fun i => todayStart ≤ i.createdAt)).length + 1)) := by
  unfold saveInvoice
  rw [if_neg hname, if_neg (ne_of_eq_of_ne hitems (by decide))]
  exact ⟨_, _, rfl, rfl, rfl⟩

/-- C9 amended witness: a draft save against one stored same-day invoice
receives sequence number 2. -/
theorem saveInvoice_number_shape_witness :
    ∃ inv items, saveInvoice none .draft "Alice" sampleLineItems [sentInvoice]
        0 "20251011" 30 5 = .saved inv items ∧
      inv.status = .draft ∧
      inv.invoiceNumber = "INV-" ++ "20251011" ++ "-" ++ padStart4
        (toString (([sentInvoice].filter
          (fun i => (0:ℤ) ≤ i.createdAt)).length + 1)) :=
  saveInvoice_number_shape .draft "Alice" sampleLineItems [sentInvoice] 0 "20251011" 30 5
    (by decide) (by simp [sampleLineItems])

/-- C4 counterexample: validating one local-variant row whose category label
is unknown appends a category to the stored collection during the validation
pass itself, so validation is not free of side effects on shared state. -/
theorem validateRow_mutates_during_validation :
    (validateRowLocal unknownCatRow 2 baseCategories baseCategories 7).2
      = baseCategories ++ [⟨"Butters", 7⟩] ∧
    baseCategories ++ [⟨"Butters", 7⟩] ≠ baseCategories := by
  constructor
  · decide
  · decide

/-- C4 amended: the supabase-variant `validateRow` is a pure classifier,
while the local-variant `validateRow` writes to the stored category
collection during the validation pass: it appends exactly one category
(named by the trimmed label) precisely when the trimmed label is non-empty
and its lowercase form is not among the known lowercase names, and leaves
the collection unchanged otherwise. -/
theorem validateRowLocal_category_effect (row : CSVRowL) (rowIndex : ℕ)
    (categories db : List Category) (now : ℤ) :
    (validateRowLocal row rowIndex categories db now).2
      = if ¬ (jsTrim (row.category.getD "") = "")
          ∧ ¬ (categories.map (fun c => jsToLower c.name)).contains
              (jsToLower (row.category.getD "")) then
          db ++ [⟨jsTrim (row.category.getD ""), now⟩]
        else db := rfl

/-- C7 counterexample: in the supabase batch-import path, ten valid records
where only record 5 (0-based index 4) fails at the storage layer yield
`successCount = 0`, `failedCount = 10` and an empty store - not the claimed
9 / 1 with the other nine records present. -/
theorem import_batch_counterexample :
    handleImportSupabase tenProducts (fun k => k == 4) = (0, 10, []) ∧
    (handleImportSupabase tenProducts (fun k => k == 4)).1 ≠ 9 := by
  constructor
  · rfl
  · decide

/-- C7 amended: the local import path inserts records independently - ten
valid records with only the fifth failing give 9 successes, 1 failure and
the other nine stored - while the supabase path inserts in batches of 50,
so the same scenario fails the whole batch: 0 successes, 10 failures,
nothing stored. -/
theorem import_failure_semantics (a b c d e f g h i j : ParsedProductL)
    (a' b' c' d' e' f' g' h' i' j' : ParsedProductS) :
    handleImportLocal [a, b, c, d, e, f, g, h, i, j] (fun k => k == 4) []
      = (9, 1, [a, b, c, d, f, g, h, i, j]) ∧
    handleImportSupabase [a', b', c', d', e', f', g', h', i', j'] (fun k => k == 4)
      = (0, 10, []) :=
  ⟨rfl, rfl⟩

/-- Every error emitted by the supabase-variant validator carries the row
number it was called with. -/
theorem validateRowSupabase_error_rows (row : CSVRowS) (idx : ℕ) :
    ∀ e ∈ (validateRowSupabase row idx).errors, e.row = idx := by
  intro e he
  simp only [validateRowSupabase] at he
  split at he
  · replace he : e ∈ supabaseRowErrors row idx := he
    simp only [supabaseRowErrors, List.mem_append] at he
    rcases he with ((((((h | h) | h) | h) | h) | h) | h) <;>
      (repeat' split at h) <;> simp_all
  · replace he : e ∈ ([] : List ValidationError) := he
    simp at he

/-- A valid supabase-variant row has an empty error list. -/
theorem validateRowSupabase_valid_no_errors (row : CSVRowS) (idx : ℕ) :
    (validateRowSupabase row idx).valid = true →
    (validateRowSupabase row idx).errors = [] := by
  simp only [validateRowSupabase]
  split
  · intro h
    simp at h
  · intro _
    rfl

/-- Error accumulation of the supabase validation pass, as a join over the
per-row error lists. -/
theorem processRowsSupabase_errors_aux (l : List (ℕ × CSVRowS))
    (acc : List ParsedProductS × List ValidationError) :
    (l.foldl stepS acc).2
      = acc.2 ++ (l.map (fun p => (validateRowSupabase p.2 (p.1 + 2)).errors)).flatten := by
  induction l generalizing acc with
  | nil => simp
  | cons x xs ih =>
    rw [List.foldl_cons, ih]
    by_cases hv : (validateRowSupabase x.2 (x.1 + 2)).valid = true
    · cases hp : (validateRowSupabase x.2 (x.1 + 2)).product with
      | some prod =>
        have he : (validateRowSupabase x.2 (x.1 + 2)).errors = [] :=
          validateRowSupabase_valid_no_errors _ _ hv
        simp [stepS, hv, hp, he]
      | none => simp [stepS, hv, hp]
    · have hv' : (validateRowSupabase x.2 (x.1 + 2)).valid = false := by
        revert hv
        cases (validateRowSupabase x.2 (x.1 + 2)).valid <;> simp
      simp [stepS, hv']

/-- The local-variant classification does not depend on the stored category
collection (only the returned collection does). -/
theorem validateRowLocal_result_db_independent (row : CSVRowL) (idx : ℕ)
    (categories db db' : List Category) (now : ℤ) :
    (validateRowLocal row idx categories db now).1
      = (validateRowLocal row idx categories db' now).1 := rfl

/-- Every error emitted by the local-variant validator carries the row
number it was called with. -/
theorem validateRowLocal_error_rows (row : CSVRowL) (idx : ℕ)
    (categories db : List Category) (now : ℤ) :
    ∀ e ∈ (validateRowLocal row idx categories db now).1.errors, e.row = idx := by
  intro e he
  simp only [validateRowLocal] at he
  split at he
  · replace he : e ∈ localRowErrors row idx := he
    simp only [localRowErrors, List.mem_append] at he
    rcases he with (((((h | h) | h) | h) | h) | h) <;>
      (repeat' split at h) <;> simp_all
  · replace he : e ∈ ([] : List ValidationError) := he
    simp at he

/-- A valid local-variant row has an empty error list. -/
theorem validateRowLocal_valid_no_errors (row : CSVRowL) (idx : ℕ)
    (categories db : List Category) (now : ℤ) :
    (validateRowLocal row idx categories db now).1.valid = true →
    (validateRowLocal row idx categories db now).1.errors = [] := by
  simp only [validateRowLocal]
  split
  · intro h
    simp at h
  · intro _
    rfl

/-- Error accumulation of the local validation pass. -/
theorem processRowsLocal_errors_aux (categories : List Category) (now : ℤ)
    (l : List (ℕ × CSVRowL))
    (acc : (List ParsedProductL × List ValidationError) × List Category) :
    (l.foldl (stepL categories now) acc).1.2
      = acc.1.2
        ++ (l.map (fun p =>
            (validateRowLocal p.2 (p.1 + 2) categories [] now).1.errors)).flatten := by
  induction l generalizing acc with
  | nil => simp
  | cons x xs ih =>
    rw [List.foldl_cons, ih]
    have hdb : (validateRowLocal x.2 (x.1 + 2) categories acc.2 now).1
        = (validateRowLocal x.2 (x.1 + 2) categories [] now).1 := rfl
    by_cases hv : (validateRowLocal x.2 (x.1 + 2) categories [] now).1.valid = true
    · cases hp : (validateRowLocal x.2 (x.1 + 2) categories [] now).1.product with
      | some prod =>
        have he : (validateRowLocal x.2 (x.1 + 2) categories [] now).1.errors = [] :=
          validateRowLocal_valid_no_errors _ _ _ _ _ hv
        simp [stepL, hdb, hv, hp, he]
      | none => simp [stepL, hdb, hv, hp]
    · have hv' : (validateRowLocal x.2 (x.1 + 2) categories [] now).1.valid = false := by
        revert hv
        cases (validateRowLocal x.2 (x.1 + 2) categories [] now).1.valid <;> simp
      simp [stepL, hdb, hv']

/-- C8: in both import variants, every validation error emitted by the
upload pass for the data row at 0-based parse index `i` reports row number
`i + 2`, so the first data row after the header is reported as row 2. -/
theorem csv_error_row_numbering :
    (∀ (rows : List CSVRowS) (e : ValidationError),
      e ∈ (processRowsSupabase rows).2 →
      ∃ i row, rows[i]? = some row
        ∧ e ∈ (validateRowSupabase row (i + 2)).errors ∧ e.row = i + 2) ∧
    (∀ (rows : List CSVRowL) (categories db : List Category) (now : ℤ)
      (e : ValidationError),
      e ∈ (processRowsLocal rows categories db now).1.2 →
      ∃ i row, rows[i]? = some row ∧ e.row = i + 2) := by
  constructor
  · intro rows e he
    rw [processRowsSupabase, processRowsSupabase_errors_aux] at he
    simp only [List.nil_append, List.mem_flatten, List.mem_map] at he
    obtain ⟨_, ⟨p, hp, rfl⟩, hem⟩ := he
    exact ⟨p.1, p.2, List.mem_enum_iff_getElem?.mp hp,
      hem, validateRowSupabase_error_rows p.2 (p.1 + 2) e hem⟩
  · intro rows categories db now e he
    rw [processRowsLocal, processRowsLocal_errors_aux] at he
    simp only [List.nil_append, List.mem_flatten, List.mem_map] at he
    obtain ⟨_, ⟨p, hp, rfl⟩, hem⟩ := he
    exact ⟨p.1, p.2, List.mem_enum_iff_getElem?.mp hp,
      validateRowLocal_error_rows p.2 (p.1 + 2) categories [] now e hem⟩

/-- C8 witness: the single (all-columns-missing) data row of a supabase
upload produces its name error against row number 2. -/
theorem csv_error_row_numbering_witness :
    ∃ i row, [emptyRowS][i]? = some row
      ∧ (⟨2, "name", "Product name is required"⟩ : ValidationError)
          ∈ (validateRowSupabase row (i + 2)).errors
      ∧ (⟨2, "name", "Product name is required"⟩ : ValidationError).row = i + 2 :=
  csv_error_row_numbering.1 [emptyRowS] ⟨2, "name", "Product name is required"⟩
    (by decide)
